import Mathlib

/-
Verification of the Naoris-Auto-Bot heartbeat client.

The repository contains two variants of the same bot class
`DeviceHeartbeatBot`:

* `src/index.js` (cloudscraper variant): `toggleDevice`, `sendHeartbeat`
  and `getWalletDetails` each swallow their own errors, so no remote
  failure ever propagates to the interval callback.
* `src/unnamed/part_000` (axios variant): `toggleDevice` and
  `getWalletDetails` rethrow after logging, while `sendHeartbeat`
  deliberately swallows its error (the throw is commented out), so the
  interval callback catch -- which sets `this.toggleState = false` -- is
  reached exactly on toggle or wallet-details failures.

We embed the per-account session state and the tick / start / shutdown
control flow of both variants, threading the outcome of each remote call
through an explicit environment, and recording the sequence of remote
calls a step issues.
-/

namespace Naoris

/-- Remote endpoints a session can hit, tagged with the toggle state an
activation call carries. Mirrors the three POSTs of the bot plus the
shutdown deactivation. -/
inductive Call where
  | toggleOn : Call
  | toggleOff : Call
  | heartbeat : Call
  | details : Call
  deriving DecidableEq

/-- Outcome of the remote endpoints during one interval callback: whether
the toggle POST, the produce-to-kafka POST and the walletDetails POST
would succeed if issued. -/
structure TickEnv where
  toggleOk : Bool
  heartbeatOk : Bool
  detailsOk : Bool
  deriving DecidableEq

/-- Mutable per-account fields of `DeviceHeartbeatBot` that the lifecycle
touches: `uptimeMinutes`, `cycleCount` (local to `startHeartbeatCycle`)
and `toggleState`. -/
structure SessionState where
  uptimeMinutes : Nat
  cycleCount : Nat
  toggleState : Bool
  deriving DecidableEq

/-- Constructor state: `this.uptimeMinutes = 0`, `cycleCount = 0`,
`this.toggleState = true` (set before any network call is made). -/
def initState : SessionState :=
  { uptimeMinutes := 0, cycleCount := 0, toggleState := true }

/-- Tail of the axios interval callback after the optional re-activation:
`sendHeartbeat` is always issued and swallows its own error (the rethrow
is commented out in the source), then `getWalletDetails` is issued; a
walletDetails failure throws into the callback catch, which sets
`toggleState = false`. -/
def afterActivation (env : TickEnv) (s : SessionState) (calls : List Call) :
    SessionState × List Call :=
  let calls := calls ++ [Call.heartbeat, Call.details]
  if env.detailsOk then (s, calls) else ({ s with toggleState := false }, calls)

/-- One interval callback of the axios variant (`src/unnamed/part_000`,
`startHeartbeatCycle`): increment `cycleCount` and `uptimeMinutes`; if
`toggleState` is false, issue a toggle-ON (success sets
`toggleState = true`, failure throws into the catch, leaving
`toggleState = false` and skipping heartbeat and details); then heartbeat
and walletDetails as in `afterActivation`. -/
def tickAxios (env : TickEnv) (s0 : SessionState) : SessionState × List Call :=
  let s := { s0 with
    cycleCount := s0.cycleCount + 1
    uptimeMinutes := s0.uptimeMinutes + 1 }
  if s.toggleState then
    afterActivation env s []
  else
    if env.toggleOk then
      afterActivation env { s with toggleState := true } [Call.toggleOn]
    else
      ({ s with toggleState := false }, [Call.toggleOn])

/-- One interval callback of the cloudscraper variant (`src/index.js`):
same skeleton, but all three calls swallow their own errors, so the
callback always runs to completion and the only state change besides the
counters is a successful re-activation setting `toggleState = true`. -/
def tickIndex (env : TickEnv) (s0 : SessionState) : SessionState × List Call :=
  let s := { s0 with
    cycleCount := s0.cycleCount + 1
    uptimeMinutes := s0.uptimeMinutes + 1 }
  if s.toggleState then
    (s, [Call.heartbeat, Call.details])
  else
    (if env.toggleOk then { s with toggleState := true } else s,
     [Call.toggleOn, Call.heartbeat, Call.details])

/-- Outcomes of the two calls `startHeartbeatCycle` makes before the
interval is installed. -/
structure StartEnv where
  toggleOk : Bool
  heartbeatOk : Bool
  deriving DecidableEq

/-- Result of `startHeartbeatCycle` up to the installation of the
interval: the session state, whether `setInterval` ran, whether the
SIGINT handler was registered, and the remote calls issued. -/
structure StartResult where
  state : SessionState
  timerScheduled : Bool
  sigintRegistered : Bool
  calls : List Call
  deriving DecidableEq

/-- The prologue of `startHeartbeatCycle` in the axios variant: the
initial `toggleDevice("ON")` rethrows on failure, so the surrounding try
jumps to its catch and neither `setInterval` nor the SIGINT registration
runs; on success `toggleState := true`, the initial heartbeat is issued
(its error swallowed), and the timer and handler are installed. -/
def startAxios (env : StartEnv) (s : SessionState) : StartResult :=
  if env.toggleOk then
    { state := { s with toggleState := true }
      timerScheduled := true
      sigintRegistered := true
      calls := [Call.toggleOn, Call.heartbeat] }
  else
    { state := s
      timerScheduled := false
      sigintRegistered := false
      calls := [Call.toggleOn] }

/-- The prologue of `startHeartbeatCycle` in the cloudscraper variant:
`toggleDevice` swallows its error, so the timer and the SIGINT handler
are installed whether or not the initial activation succeeded; only a
successful activation sets `toggleState := true`. -/
def startIndex (env : StartEnv) (s : SessionState) : StartResult :=
  { state := if env.toggleOk then { s with toggleState := true } else s
    timerScheduled := true
    sigintRegistered := true
    calls := [Call.toggleOn, Call.heartbeat] }

/-- A session together with its interval timer (live until
`clearInterval`). -/
structure Session where
  state : SessionState
  timerActive : Bool
  deriving DecidableEq

/-- Body of the SIGINT handler registered by `startHeartbeatCycle` (both
variants): `clearInterval(timer)` then one `toggleDevice("OFF")`; a
successful OFF sets `toggleState = false` (the assignment
`this.toggleState = (state === "ON")`), a failed one leaves the state
unchanged. -/
def sigintHandler (offOk : Bool) (sess : Session) : Session × List Call :=
  let st := if offOk then { sess.state with toggleState := false } else sess.state
  ({ state := st, timerActive := false }, [Call.toggleOff])

/-- One scheduler step for a session: the interval callback fires only
while the timer is installed. -/
def runStep (env : TickEnv) (sess : Session) : Session × List Call :=
  if sess.timerActive then
    let (s, calls) := tickAxios env sess.state
    ({ sess with state := s }, calls)
  else
    (sess, [])

/-- Iterated scheduler steps, accumulating the remote calls issued. -/
def runSteps : List TickEnv → Session → Session × List Call
  | [], sess => (sess, [])
  | e :: es, sess =>
      let (sess1, calls) := runStep e sess
      let (sess2, rest) := runSteps es sess1
      (sess2, calls ++ rest)

/-- Iterated interval callbacks of the axios variant (state only). -/
def runTicksAxios : List TickEnv → SessionState → SessionState
  | [], s => s
  | e :: es, s => runTicksAxios es (tickAxios e s).1

/-- Iterated interval callbacks of the cloudscraper variant (state
only). -/
def runTicksIndex : List TickEnv → SessionState → SessionState
  | [], s => s
  | e :: es, s => runTicksIndex es (tickIndex e s).1

/-- Proxy assignment of `main` in `src/index.js`:
`proxies.length > 0 ? proxies[index % proxies.length] : null`. -/
def assignProxyIndex (proxies : List String) (i : Nat) : Option String :=
  if proxies.length > 0 then proxies[i % proxies.length]? else none

/-- Proxy assignment of `main` in `src/unnamed/part_000`:
`proxies[index % proxies.length]` with no guard; on an empty list the
JavaScript index is NaN and the lookup yields `undefined`, which the
constructor treats as no proxy. -/
def assignProxyAxios (proxies : List String) (i : Nat) : Option String :=
  proxies[i % proxies.length]?

/-- User-agent assignment of `main` (both variants):
`userAgents[index % userAgents.length]` with no guard and no fallback
value anywhere in the sources; on an empty list the lookup yields
`undefined`. -/
def assignUserAgent (userAgents : List String) (i : Nat) : Option String :=
  userAgents[i % userAgents.length]?

/-- JavaScript `x || 0` on the optional numeric field
`details.activeRatePerMinute`: a missing field or a zero rate both give
0, any other numeric rate passes through. -/
def jsOrZero : Option ℚ → ℚ
  | none => 0
  | some r => if r = 0 then 0 else r

/-- The earnings estimate of `logWalletDetails` (both variants):
`this.uptimeMinutes * (details.activeRatePerMinute || 0)`. -/
def estimatedEarnings (uptimeMinutes : Nat) (activeRatePerMinute : Option ℚ) : ℚ :=
  (uptimeMinutes : ℚ) * jsOrZero activeRatePerMinute

/-- Firing the interval callback of bot `a` in a run with several bots
(`main` constructs one `DeviceHeartbeatBot` per account; each callback
references only its own `this`): bot `a` steps, every other bot is
untouched. -/
def multiTick : Nat → TickEnv → List SessionState → List SessionState
  | _, _, [] => []
  | 0, env, s :: rest => (tickAxios env s).1 :: rest
  | Nat.succ n, env, s :: rest => s :: multiTick n env rest

/-- On SIGINT the process runs every registered handler: each session has
its interval cleared and issues one deactivation call. -/
def sigintBroadcast (offOk : Bool) (sessions : List Session) :
    List (Session × List Call) :=
  sessions.map (fun sess => sigintHandler offOk sess)

/-- Every SIGINT handler ends in `process.exit()`, so the process
terminates as soon as the FIRST deactivation call completes. Given the
completion times of the per-session OFF calls, this is the earliest of
them. -/
def firstExit : List Nat → Option Nat
  | [] => none
  | d :: ds =>
      some (match firstExit ds with
        | none => d
        | some t => min d t)

/-- C1, counterexample: a tick in which a remote call (the heartbeat
POST, `heartbeatOk = false`) fails, yet `toggleState` stays true
afterwards in both variants, because `sendHeartbeat` swallows its own
error; this contradicts the spec invariant that `deviceActive` is set
false whenever any of the remote calls of a tick fails. -/
theorem C1_counterexample :
    (tickAxios ⟨true, false, true⟩ initState).1.toggleState = true ∧
    (tickIndex ⟨true, false, true⟩ initState).1.toggleState = true := by
  decide

/-- C1, amended: `toggleState` starts out true before any toggle call;
after a tick of the axios variant it equals (previous value OR the tick
re-activated successfully) AND the walletDetails call succeeded, while in
the cloudscraper variant it equals previous value OR successful
re-activation -- heartbeat failures never change it, and in the
cloudscraper variant no remote failure ever sets it false. -/
theorem C1_toggleState_characterization (env : TickEnv) (s : SessionState) :
    initState.toggleState = true ∧
    (tickAxios env s).1.toggleState = ((s.toggleState || env.toggleOk) && env.detailsOk) ∧
    (tickIndex env s).1.toggleState = (s.toggleState || env.toggleOk) := by
  rcases s with ⟨u, c, t⟩
  rcases env with ⟨a, b, d⟩
  refine ⟨rfl, ?_, ?_⟩ <;>
    cases t <;> cases a <;> cases d <;>
      simp [tickAxios, tickIndex, afterActivation, initState]

/-- C2, counterexample: a tick whose heartbeat call fails
(`heartbeatOk = false`) leaves `toggleState = true` in the axios variant,
and the immediately following tick issues no activation call at all --
contradicting the claim that such a tick leaves `deviceActive = false`
and that the next tick activates before its heartbeat. -/
theorem C2_counterexample :
    (tickAxios ⟨true, false, true⟩ initState).1.toggleState = true ∧
    Call.toggleOn ∉
      (tickAxios ⟨true, true, true⟩ (tickAxios ⟨true, false, true⟩ initState).1).2 := by
  decide

/-- C2, amended: in the axios variant it is a tick failing at the
walletDetails step (detailsOk = false) that leaves `toggleState = false`,
and the immediately following tick then issues a toggle-ON call before
any other remote call; a failure of the heartbeat call alone is swallowed
inside `sendHeartbeat` and triggers no re-activation. -/
theorem C2_details_failure_triggers_reactivation (e1 e2 : TickEnv)
    (s : SessionState) (h : e1.detailsOk = false) :
    (tickAxios e1 s).1.toggleState = false ∧
    (tickAxios e2 (tickAxios e1 s).1).2.head? = some Call.toggleOn := by
  rcases e1 with ⟨a1, b1, d1⟩
  rcases e2 with ⟨a2, b2, d2⟩
  rcases s with ⟨u, c, t⟩
  subst h
  cases t <;> cases a1 <;> cases a2 <;> cases d2 <;>
    simp [tickAxios, afterActivation]

/-- C2, witness for the amended theorem at a concrete failing tick. -/
theorem C2_details_failure_witness :
    (tickAxios ⟨true, true, false⟩ initState).1.toggleState = false ∧
    (tickAxios ⟨true, true, true⟩
        (tickAxios ⟨true, true, false⟩ initState).1).2.head? = some Call.toggleOn :=
  C2_details_failure_triggers_reactivation ⟨true, true, false⟩ ⟨true, true, true⟩
    initState rfl

/-- C3, counterexample: in the axios variant (`src/unnamed/part_000`) a
failed initial activation makes `toggleDevice` rethrow, the try of
`startHeartbeatCycle` jumps to its catch, and `setInterval` never runs:
no ticks are scheduled, contradicting the claim that the session still
schedules the repeating tick. -/
theorem C3_counterexample :
    (startAxios ⟨false, true⟩ initState).timerScheduled = false := by
  decide

/-- C3, amended: only the cloudscraper variant (`src/index.js`) schedules
the repeating tick after a failed initial activation (its `toggleDevice`
swallows the error); in the axios variant the timer is scheduled exactly
when the initial activation succeeds, a failure aborting
`startHeartbeatCycle` before `setInterval` and before the SIGINT handler
registration. -/
theorem C3_start_scheduling (env : StartEnv) (s : SessionState) :
    (startIndex env s).timerScheduled = true ∧
    (startAxios env s).timerScheduled = env.toggleOk ∧
    (startAxios env s).sigintRegistered = env.toggleOk := by
  rcases env with ⟨a, b⟩
  cases a <;> simp [startIndex, startAxios]

/-- C4: in both variants account `i` receives proxy
`proxies[i mod p]`; on an empty proxy list neither variant assigns a
proxy (index.js guards the lookup explicitly, part_000 falls through to
an out-of-range lookup that comes back as no proxy), and on a nonempty
list some proxy, namely the one at index `i mod p`, is always assigned. -/
theorem C4_proxy_assignment (proxies : List String) (i : Nat) :
    assignProxyIndex proxies i = proxies[i % proxies.length]? ∧
    assignProxyAxios proxies i = proxies[i % proxies.length]? ∧
    assignProxyIndex [] i = none ∧
    assignProxyAxios [] i = none ∧
    ∀ a l, ∃ v, assignProxyIndex (a :: l) i = some v ∧
      (a :: l)[i % (a :: l).length]? = some v := by
  refine ⟨?_, rfl, rfl, rfl, ?_⟩
  · cases proxies with
    | nil => simp [assignProxyIndex]
    | cons a l => simp [assignProxyIndex]
  · intro a l
    have hm : i % (a :: l).length < (a :: l).length :=
      Nat.mod_lt i (Nat.succ_pos l.length)
    refine ⟨(a :: l).get ⟨i % (a :: l).length, hm⟩, ?_, ?_⟩
    · simp [assignProxyIndex, List.getElem?_eq_getElem hm]
    · simp [List.getElem?_eq_getElem hm]

/-- C5, counterexample: with an empty user-agent list, account 0 is
assigned no user-agent at all (the unguarded lookup yields `undefined`
and there is no default string anywhere in the sources), contradicting
the claim that a default user-agent string is assigned when `u = 0`. -/
theorem C5_counterexample :
    assignUserAgent [] 0 = none := by
  decide

/-- C5, amended: account `i` is assigned `userAgents[i mod u]`; when
`u = 0` the account is assigned no user-agent value at all (there is no
default), and on a nonempty list it is always assigned some entry of the
list. -/
theorem C5_userAgent_assignment (userAgents : List String) (i : Nat) :
    assignUserAgent userAgents i = userAgents[i % userAgents.length]? ∧
    assignUserAgent [] i = none ∧
    ∀ a l, ∃ v, assignUserAgent (a :: l) i = some v ∧ v ∈ a :: l := by
  refine ⟨rfl, rfl, ?_⟩
  intro a l
  have hm : i % (a :: l).length < (a :: l).length :=
    Nat.mod_lt i (Nat.succ_pos l.length)
  exact ⟨(a :: l).get ⟨i % (a :: l).length, hm⟩,
    List.getElem?_eq_getElem hm, List.getElem_mem hm⟩

/-- Helper: once the interval has been cleared, scheduler steps neither
change the session nor issue remote calls. -/
theorem runSteps_of_timer_cleared (envs : List TickEnv) (sess : Session)
    (h : sess.timerActive = false) : runSteps envs sess = (sess, []) := by
  induction envs with
  | nil => rfl
  | cons e es ih =>
      simp [runSteps, runStep, h, ih]

/-- C6: whatever the session state when the shutdown signal arrives, the
SIGINT handler clears the interval and issues exactly one deactivation
(toggle OFF) call -- whether or not that call succeeds -- and afterwards
no further ticks run and no further remote calls are issued. -/
theorem C6_stop_single_deactivation (offOk : Bool) (sess : Session)
    (envs : List TickEnv) :
    (sigintHandler offOk sess).2 = [Call.toggleOff] ∧
    (sigintHandler offOk sess).2.count Call.toggleOff = 1 ∧
    (sigintHandler offOk sess).1.timerActive = false ∧
    runSteps envs (sigintHandler offOk sess).1 = ((sigintHandler offOk sess).1, []) := by
  refine ⟨rfl, rfl, rfl, ?_⟩
  exact runSteps_of_timer_cleared envs _ rfl

/-- Helper: `firstExit` returns a value exactly on a nonempty list. -/
theorem firstExit_eq_none (ds : List Nat) : firstExit ds = none ↔ ds = [] := by
  cases ds with
  | nil => simp [firstExit]
  | cons d ds => simp [firstExit]

/-- Helper: the first completed deactivation is one of the deactivations
and completes no later than any other. -/
theorem firstExit_is_min (ds : List Nat) (t : Nat) (h : firstExit ds = some t) :
    t ∈ ds ∧ ∀ d ∈ ds, t ≤ d := by
  induction ds generalizing t with
  | nil => cases h
  | cons d ds ih =>
      cases hds : firstExit ds with
      | none =>
          have hnil : ds = [] := (firstExit_eq_none ds).mp hds
          subst hnil
          simp [firstExit] at h
          subst h
          simp
      | some t0 =>
          rcases ih t0 hds with ⟨hmem, hle⟩
          simp [firstExit, hds] at h
          subst h
          constructor
          · rcases le_total d t0 with hd | hd
            · rw [min_eq_left hd]; exact List.mem_cons_self d ds
            · rw [min_eq_right hd]; exact List.mem_cons_of_mem d hmem
          · intro x hx
            rcases List.mem_cons.mp hx with hx | hx
            · rw [hx]; exact Nat.min_le_left d t0
            · exact le_trans (Nat.min_le_right d t0) (hle x hx)

/-- C7, counterexample: two sessions whose deactivation calls take 1 and
2 units of time; every SIGINT handler ends in `process.exit()`, so the
process terminates at time 1, before the second deactivation (duration 2)
has finished -- contradicting the claim that the process waits for each
deactivation call. -/
theorem C7_counterexample :
    firstExit [1, 2] = some 1 ∧ ([1, 2].all fun d => d ≤ 1) = false := by
  decide

/-- C7, amended: the shutdown signal does reach every session -- each
registered handler clears its interval and issues its one deactivation
call -- but the process exits as soon as the earliest deactivation
completes (each handler calls `process.exit()` right after its own OFF
call), so deactivations that take longer than the earliest are cut off
rather than awaited. -/
theorem C7_shutdown_behavior (offOk : Bool) (sessions : List Session)
    (ds : List Nat) (t : Nat) (h : firstExit ds = some t) :
    (sigintBroadcast offOk sessions).length = sessions.length ∧
    (∀ p ∈ sigintBroadcast offOk sessions,
      p.2 = [Call.toggleOff] ∧ p.1.timerActive = false) ∧
    t ∈ ds ∧ ∀ d ∈ ds, t ≤ d := by
  refine ⟨by simp [sigintBroadcast], ?_, firstExit_is_min ds t h⟩
  intro p hp
  rcases List.mem_map.mp hp with ⟨sess, _, rfl⟩
  exact ⟨rfl, rfl⟩

/-- C7, witness: the amended shutdown behaviour applied to one concrete
session and the concrete deactivation durations 1 and 2. -/
theorem C7_shutdown_behavior_witness :
    (sigintBroadcast true [{ state := initState, timerActive := true }]).length =
      [({ state := initState, timerActive := true } : Session)].length ∧
    1 ∈ [1, 2] := by
  have H := C7_shutdown_behavior true
    [{ state := initState, timerActive := true }] [1, 2] 1 (by decide)
  exact ⟨H.1, H.2.2.1⟩

/-- C8: the earnings estimate of `logWalletDetails` is the uptime counter
times the reported per-minute rate (`rate || 0` coincides with the rate
for every numeric rate, zero included); in particular 10 ticks at rate
1/2 give 5, and a missing rate field gives 0. -/
theorem C8_estimated_earnings (u : Nat) (r : ℚ) :
    estimatedEarnings u (some r) = (u : ℚ) * r ∧
    estimatedEarnings 10 (some (1 / 2)) = 5 ∧
    estimatedEarnings u none = 0 := by
  refine ⟨?_, by norm_num [estimatedEarnings, jsOrZero],
    by simp [estimatedEarnings, jsOrZero]⟩
  by_cases h : r = 0 <;> simp [estimatedEarnings, jsOrZero, h]

/-- C9: ticking bot `a` in a multi-account run leaves every other bot
`b` completely unchanged -- in particular its `uptimeMinutes` and
`toggleState` -- whatever the outcome of the remote calls of the tick of
bot `a`. -/
theorem C9_frame_independence (a b : Nat) (env : TickEnv)
    (bots : List SessionState) (h : a ≠ b) :
    (multiTick a env bots)[b]? = bots[b]? := by
  induction bots generalizing a b with
  | nil => simp [multiTick]
  | cons s rest ih =>
      cases a with
      | zero =>
          cases b with
          | zero => exact absurd rfl h
          | succ m => simp [multiTick]
      | succ n =>
          cases b with
          | zero => simp [multiTick]
          | succ m =>
              simp only [multiTick, List.getElem?_cons_succ]
              exact ih n m fun he => h (by rw [he])

/-- C9, witness: failing every remote call of bot 0 leaves bot 1 exactly
as it was. -/
theorem C9_frame_independence_witness :
    (multiTick 0 ⟨false, false, false⟩
        [initState, { initState with uptimeMinutes := 9 }])[1]? =
      [initState, { initState with uptimeMinutes := 9 }][1]? :=
  C9_frame_independence 0 1 ⟨false, false, false⟩
    [initState, { initState with uptimeMinutes := 9 }] (by decide)

/-- Helper: one axios tick always increments the uptime counter by
exactly one, whatever the remote outcomes. -/
theorem tickAxios_uptime (env : TickEnv) (s : SessionState) :
    (tickAxios env s).1.uptimeMinutes = s.uptimeMinutes + 1 := by
  rcases s with ⟨u, c, t⟩
  rcases env with ⟨x, y, z⟩
  cases t <;> cases x <;> cases z <;> simp [tickAxios, afterActivation]

/-- Helper: one cloudscraper tick always increments the uptime counter by
exactly one, whatever the remote outcomes. -/
theorem tickIndex_uptime (env : TickEnv) (s : SessionState) :
    (tickIndex env s).1.uptimeMinutes = s.uptimeMinutes + 1 := by
  rcases s with ⟨u, c, t⟩
  rcases env with ⟨x, y, z⟩
  cases t <;> cases x <;> simp [tickIndex]

/-- Helper: iterated axios ticks add the number of ticks to the uptime
counter. -/
theorem runTicksAxios_uptime (envs : List TickEnv) (s : SessionState) :
    (runTicksAxios envs s).uptimeMinutes = s.uptimeMinutes + envs.length := by
  induction envs generalizing s with
  | nil => simp [runTicksAxios]
  | cons e es ih =>
      simp [runTicksAxios, ih, tickAxios_uptime]
      omega

/-- Helper: iterated cloudscraper ticks add the number of ticks to the
uptime counter. -/
theorem runTicksIndex_uptime (envs : List TickEnv) (s : SessionState) :
    (runTicksIndex envs s).uptimeMinutes = s.uptimeMinutes + envs.length := by
  induction envs generalizing s with
  | nil => simp [runTicksIndex]
  | cons e es ih =>
      simp [runTicksIndex, ih, tickIndex_uptime]
      omega

/-- C10: every tick, failing or not, increments `uptimeMinutes` by
exactly one in both variants; the start prologue and the shutdown handler
never touch it; hence after any sequence of ticks the counter equals the
number of ticks executed, and the earnings estimate prices failed minutes
exactly like successful ones (shown at rate 1). -/
theorem C10_uptime_counts_every_tick (envs : List TickEnv) (s : SessionState)
    (env : TickEnv) (se : StartEnv) (offOk : Bool) (sess : Session) :
    (tickAxios env s).1.uptimeMinutes = s.uptimeMinutes + 1 ∧
    (tickIndex env s).1.uptimeMinutes = s.uptimeMinutes + 1 ∧
    (runTicksAxios envs s).uptimeMinutes = s.uptimeMinutes + envs.length ∧
    (runTicksIndex envs s).uptimeMinutes = s.uptimeMinutes + envs.length ∧
    (startAxios se s).state.uptimeMinutes = s.uptimeMinutes ∧
    (startIndex se s).state.uptimeMinutes = s.uptimeMinutes ∧
    (sigintHandler offOk sess).1.state.uptimeMinutes = sess.state.uptimeMinutes ∧
    estimatedEarnings (runTicksAxios envs initState).uptimeMinutes (some 1) =
      (envs.length : ℚ) := by
  refine ⟨tickAxios_uptime env s, tickIndex_uptime env s,
    runTicksAxios_uptime envs s, runTicksIndex_uptime envs s, ?_, ?_, ?_, ?_⟩
  · rcases se with ⟨x, y⟩
    cases x <;> simp [startAxios]
  · rcases se with ⟨x, y⟩
    cases x <;> simp [startIndex]
  · cases offOk <;> simp [sigintHandler]
  · rw [runTicksAxios_uptime envs initState]
    simp [estimatedEarnings, jsOrZero, initState]

end Naoris
